import Mathlib

/-!
Verification of the callable-wrapper unit of ext-php-rs
(file src/types/callable.rs): construction of a ZendCallable from a
borrowed, owned, or name-built value cell, and the try_call invocation
protocol (re-validation, argument marshalling, the count bound, the
foreign call, and status/exception interpretation).

The wrapper logic is translated directly from the Rust source.  The
external collaborators the unit consumes — the value cell type, the
host runtime callable predicate, the invocation bridge
(_call_user_function_impl), and the exception bridge
(ExecutorGlobals::take_exception) — live outside the translated unit
and are modelled from the specification at their interfaces: the
callable predicate and the bridge become explicit parameters, and the
process-wide exception slot is threaded through try_call as explicit
state.  Each try_call run additionally reports, as observation points,
how many argument conversions were consumed, how often the invocation
bridge ran, and how often the exception bridge was queried.
-/

namespace PhpCallable

/-- Modelled from the spec: the opaque value cell of the host runtime.
The cell layout is external to this unit; only the shapes the unit
itself constructs (a fresh undefined cell, a string-typed cell) are
distinguished, every other cell is a tagged payload. -/
inductive Zval where
  | undef : Zval
  | str : String → Zval
  | cell : Nat → Zval
  deriving DecidableEq

/-- Modelled from the spec: the conversion-failure kinds; the concrete
error enumeration is external to this unit.  The overflow kind is the
one produced locally for an oversized argument count. -/
inductive ConvKind where
  | overflow : ConvKind
  | other : Nat → ConvKind
  deriving DecidableEq

/-- Modelled from the spec: the error taxonomy this unit produces.
Callable is the NotCallable kind, Exception carries the pending
exception value taken from the exception bridge, and ConversionFailure
covers failed argument marshalling and the local overflow case. -/
inductive Error where
  | Callable : Error
  | Exception : Zval → Error
  | ConversionFailure : ConvKind → Error
  deriving DecidableEq

/-- Modelled from the spec: the external capabilities try_call
consumes.  is_callable is the host runtime callable predicate on value
cells; bridge is the invocation bridge, taking the callable cell, the
argument count, and the marshalled arguments, and returning the signed
status code together with the output cell it writes. -/
structure Env where
  is_callable : Zval → Bool
  bridge : Zval → Nat → List Zval → Int × Zval

/-- A container for a zval: either a reference to a zval or an owned
zval (source enum OwnedZval). -/
inductive OwnedZval where
  | Reference : Zval → OwnedZval
  | Owned : Zval → OwnedZval
  deriving DecidableEq

/-- Source OwnedZval::as_ref, the single read accessor through which
both variants expose the underlying cell. -/
def OwnedZval.as_ref : OwnedZval → Zval
  | .Reference zv => zv
  | .Owned zv => zv

/-- Source struct ZendCallable: a wrapper around a callable zval. -/
structure ZendCallable where
  inner : OwnedZval
  deriving DecidableEq

/-- Source ZendCallable::new: wraps a borrowed zval when it satisfies
the callable predicate, and fails with the NotCallable error kind
otherwise. -/
def ZendCallable.new (env : Env) (callable : Zval) : Except Error ZendCallable :=
  if env.is_callable callable then
    .ok ⟨.Reference callable⟩
  else
    .error .Callable

/-- Source ZendCallable::new_owned: wraps an owned zval when it
satisfies the callable predicate, and fails with the NotCallable error
kind otherwise. -/
def ZendCallable.new_owned (env : Env) (callable : Zval) : Except Error ZendCallable :=
  if env.is_callable callable then
    .ok ⟨.Owned callable⟩
  else
    .error .Callable

/-- Modelled from the spec: Zval::set_string builds a string-typed
value cell holding the given text (the Zval implementation is external
to this unit; failure of the host allocator is outside the model). -/
def Zval.set_string (name : String) : Except Error Zval :=
  .ok (.str name)

/-- Source ZendCallable::try_from_name: builds a string zval holding
the name and delegates to new_owned. -/
def ZendCallable.try_from_name (env : Env) (name : String) : Except Error ZendCallable :=
  match Zval.set_string name with
  | .error e => .error e
  | .ok callable => ZendCallable.new_owned env callable

/-- Source TryFrom Zval for ZendCallable: delegates to new_owned. -/
def ZendCallable.try_from (env : Env) (value : Zval) : Except Error ZendCallable :=
  ZendCallable.new_owned env value

/-- The largest value of the invocation bridge's unsigned 32-bit count
parameter. -/
def U32_MAX : Nat := 4294967295

/-- Source len.try_into() from usize to the bridge's u32 count: fails
past U32_MAX.  The error kind of the failure is modelled from the spec
as the local conversion/overflow kind. -/
def try_into_u32 (len : Nat) : Except Error Nat :=
  if len ≤ U32_MAX then .ok len else .error (.ConversionFailure .overflow)

/-- Source params.into_iter().map(as_zval).collect over Result: each
list element is the outcome the corresponding argument's as_zval
conversion yields, and the collect stops at the first failing
conversion.  The second component counts how many conversions were
consumed, the observation point of the spec's mock conversion layer. -/
def collect_results : List (Except Error Zval) → Except Error (List Zval) × Nat
  | [] => (.ok [], 0)
  | .error e :: _ => (.error e, 1)
  | .ok z :: rest =>
    match collect_results rest with
    | (.error e, n) => (.error e, n + 1)
    | (.ok zs, n) => (.ok (z :: zs), n + 1)

/-- Modelled from the spec: ExecutorGlobals::take_exception, the
exception bridge's take-and-clear operation: it yields the current
slot content and leaves the slot empty. -/
def ExecutorGlobals.take_exception (slot : Option Zval) : Option Zval × Option Zval :=
  (slot, none)

/-- Outcome of one try_call run: the returned result, the exception
slot after the run, and the observation counters: how often the
invocation bridge ran, how many argument conversions were consumed,
and how often the exception bridge was queried. -/
structure TryCallResult where
  result : Except Error Zval
  slot : Option Zval
  bridgeCalls : Nat
  marshalled : Nat
  excQueries : Nat

/-- Source ZendCallable::try_call, with the process-wide exception
slot threaded explicitly.  params carries, per argument in the order
given, the outcome that argument's as_zval conversion yields. -/
def ZendCallable.try_call (env : Env) (self : ZendCallable)
    (params : List (Except Error Zval)) (slot : Option Zval) : TryCallResult :=
  if !(env.is_callable self.inner.as_ref) then
    ⟨.error .Callable, slot, 0, 0, 0⟩
  else
    let len := params.length
    match collect_results params with
    | (.error e, n) => ⟨.error e, slot, 0, n, 0⟩
    | (.ok zvals, n) =>
      match try_into_u32 len with
      | .error e => ⟨.error e, slot, 0, n, 0⟩
      | .ok argc =>
        let res := env.bridge self.inner.as_ref argc zvals
        if res.1 < 0 then
          ⟨.error .Callable, slot, 1, n, 0⟩
        else
          match ExecutorGlobals.take_exception slot with
          | (some e, slotAfter) => ⟨.error (.Exception e), slotAfter, 1, n, 1⟩
          | (none, slotAfter) => ⟨.ok res.2, slotAfter, 1, n, 1⟩

/-- A concrete environment used to evaluate the wrapper: string cells
other than the missing name and the cell tagged 0 are callable, and
the bridge returns status argc - 1 together with the cell tagged 42 as
output. -/
def envW : Env :=
  ⟨fun z =>
    match z with
    | .str s => s != "missing"
    | .cell 0 => true
    | _ => false,
   fun _ argc _ => ((argc : Int) - 1, Zval.cell 42)⟩

theorem collect_results_map_ok (zs : List Zval) :
    collect_results (zs.map Except.ok) = (.ok zs, zs.length) := by
  induction zs with
  | nil => rfl
  | cons z rest ih => simp [collect_results, ih]

theorem collect_results_first_error (zs : List Zval) (e : Error)
    (post : List (Except Error Zval)) :
    collect_results (zs.map Except.ok ++ .error e :: post) = (.error e, zs.length + 1) := by
  induction zs with
  | nil => rfl
  | cons z rest ih => simp [collect_results, ih]

/-- C6: each constructor succeeds exactly when the cell satisfies the
callable predicate, new producing a Reference wrapper and new_owned an
Owned wrapper; both fail with NotCallable otherwise, so every wrapper
either constructor produces wraps a cell callable at construction. -/
theorem c6_constructors_iff_callable (env : Env) (c : Zval) :
    (env.is_callable c = true →
      ZendCallable.new env c = .ok ⟨.Reference c⟩ ∧
      ZendCallable.new_owned env c = .ok ⟨.Owned c⟩) ∧
    (env.is_callable c = false →
      ZendCallable.new env c = .error .Callable ∧
      ZendCallable.new_owned env c = .error .Callable) ∧
    (∀ w, ZendCallable.new env c = .ok w →
      w = ⟨.Reference c⟩ ∧ env.is_callable w.inner.as_ref = true) ∧
    (∀ w, ZendCallable.new_owned env c = .ok w →
      w = ⟨.Owned c⟩ ∧ env.is_callable w.inner.as_ref = true) := by
  by_cases h : env.is_callable c <;>
    simp [ZendCallable.new, ZendCallable.new_owned, h, OwnedZval.as_ref]

/-- C6 witness: the concrete callable cell 0 is accepted by both
constructors and the concrete non-callable cell 3 is rejected. -/
theorem c6_constructors_iff_callable_witness :
    ZendCallable.new envW (Zval.cell 0) = .ok ⟨.Reference (.cell 0)⟩ ∧
    ZendCallable.new_owned envW (Zval.cell 0) = .ok ⟨.Owned (.cell 0)⟩ ∧
    ZendCallable.new_owned envW (Zval.cell 3) = .error .Callable :=
  ⟨((c6_constructors_iff_callable envW (Zval.cell 0)).1 rfl).1,
   ((c6_constructors_iff_callable envW (Zval.cell 0)).1 rfl).2,
   ((c6_constructors_iff_callable envW (Zval.cell 3)).2.1 rfl).2⟩

/-- C2 counterexample: two distinct non-callable cells are both
rejected with literally identical outcomes, so the failure outcome of
new_owned carries nothing of the rejected cell back to the caller, and
ownership of the cell cannot return through it. -/
theorem c2_ownership_counterexample :
    envW.is_callable (Zval.cell 1) = false ∧
    envW.is_callable (Zval.cell 2) = false ∧
    Zval.cell 1 ≠ Zval.cell 2 ∧
    ZendCallable.new_owned envW (Zval.cell 1) = .error .Callable ∧
    ZendCallable.new_owned envW (Zval.cell 1) = ZendCallable.new_owned envW (Zval.cell 2) :=
  ⟨rfl, rfl, by decide, rfl, rfl⟩

/-- C2 amended: for every cell failing the callable predicate,
new_owned fails with NotCallable, and the failure outcome is the same
for every rejected cell: the NotCallable error carries no cell, so the
constructor consumes the rejected cell rather than returning its
ownership to the caller. -/
theorem c2_new_owned_rejects (env : Env) (c c2 : Zval)
    (hc : env.is_callable c = false) (hc2 : env.is_callable c2 = false) :
    ZendCallable.new_owned env c = .error .Callable ∧
    ZendCallable.new_owned env c = ZendCallable.new_owned env c2 := by
  simp [ZendCallable.new_owned, hc, hc2]

/-- C2 amended witness at the concrete non-callable cells 1 and 2. -/
theorem c2_new_owned_rejects_witness :
    ZendCallable.new_owned envW (Zval.cell 1) = .error .Callable ∧
    ZendCallable.new_owned envW (Zval.cell 1) = ZendCallable.new_owned envW (Zval.cell 2) :=
  c2_new_owned_rejects envW (Zval.cell 1) (Zval.cell 2) rfl rfl

/-- C7: the Reference and Owned variants expose the underlying cell
through the single accessor as_ref, which returns the same cell for
both, and try_call through a Reference wrapper and through an Owned
wrapper over the same cell produces identical outcomes for identical
arguments and slot state. -/
theorem c7_reference_owned_agree (env : Env) (c : Zval)
    (params : List (Except Error Zval)) (slot : Option Zval) :
    (OwnedZval.Reference c).as_ref = (OwnedZval.Owned c).as_ref ∧
    ZendCallable.try_call env ⟨.Reference c⟩ params slot =
      ZendCallable.try_call env ⟨.Owned c⟩ params slot :=
  ⟨rfl, rfl⟩

/-- C8: try_from_name builds a string-typed cell holding the name and
delegates to new_owned on it; it yields an Owned wrapper over the
string cell when that cell is callable and fails with NotCallable
when it is not (no such named callable exists). -/
theorem c8_try_from_name_delegates (env : Env) (name : String) :
    ZendCallable.try_from_name env name = ZendCallable.new_owned env (Zval.str name) ∧
    (env.is_callable (Zval.str name) = true →
      ZendCallable.try_from_name env name = .ok ⟨.Owned (.str name)⟩) ∧
    (env.is_callable (Zval.str name) = false →
      ZendCallable.try_from_name env name = .error .Callable) := by
  refine ⟨rfl, fun h => ?_, fun h => ?_⟩ <;>
    simp [ZendCallable.try_from_name, Zval.set_string, ZendCallable.new_owned, h]

/-- C8 witness: the existing name is wrapped, the missing name is
rejected with NotCallable. -/
theorem c8_try_from_name_delegates_witness :
    ZendCallable.try_from_name envW "strpos" = .ok ⟨.Owned (.str "strpos")⟩ ∧
    ZendCallable.try_from_name envW "missing" = .error .Callable :=
  ⟨(c8_try_from_name_delegates envW "strpos").2.1 (by decide),
   (c8_try_from_name_delegates envW "missing").2.2 (by decide)⟩

/-- C4: whenever the wrapped cell fails the re-checked callable
predicate at the start of try_call, the call fails with NotCallable
immediately: no argument is marshalled, the invocation bridge never
runs, the exception bridge is never queried, and the slot is left as
it was. -/
theorem c4_revalidation_guards (env : Env) (w : ZendCallable)
    (params : List (Except Error Zval)) (slot : Option Zval)
    (hc : env.is_callable w.inner.as_ref = false) :
    ZendCallable.try_call env w params slot = ⟨.error .Callable, slot, 0, 0, 0⟩ := by
  simp [ZendCallable.try_call, hc]

/-- C4 witness at a concrete wrapper over the non-callable cell 3. -/
theorem c4_revalidation_guards_witness :
    ZendCallable.try_call envW ⟨.Owned (.cell 3)⟩ [Except.ok Zval.undef] (some (.cell 9)) =
      ⟨.error .Callable, some (.cell 9), 0, 0, 0⟩ :=
  c4_revalidation_guards envW ⟨.Owned (.cell 3)⟩ [Except.ok Zval.undef] (some (.cell 9)) rfl

/-- C3: arguments are converted in the order given, and when the
conversion of one argument fails after the earlier ones succeeded,
try_call propagates that conversion's failure kind at once: exactly
the failing argument and its predecessors were marshalled (the later
arguments are never consumed), the invocation bridge never runs, and
the slot is untouched. -/
theorem c3_marshalling_aborts_early (env : Env) (w : ZendCallable)
    (zs : List Zval) (e : Error) (post : List (Except Error Zval)) (slot : Option Zval)
    (hc : env.is_callable w.inner.as_ref = true) :
    ZendCallable.try_call env w (zs.map Except.ok ++ .error e :: post) slot =
      ⟨.error e, slot, 0, zs.length + 1, 0⟩ := by
  simp [ZendCallable.try_call, hc, collect_results_first_error]

/-- C3 witness: one succeeding argument, one failing argument, one
argument after the failure that is never consumed. -/
theorem c3_marshalling_aborts_early_witness :
    ZendCallable.try_call envW ⟨.Reference (.cell 0)⟩
        ([Zval.undef].map Except.ok ++
          .error (.ConversionFailure (.other 5)) :: [Except.ok Zval.undef]) none =
      ⟨.error (.ConversionFailure (.other 5)), none, 0, 2, 0⟩ :=
  c3_marshalling_aborts_early envW ⟨.Reference (.cell 0)⟩ [Zval.undef]
    (.ConversionFailure (.other 5)) [Except.ok Zval.undef] none rfl

/-- C5: when every argument converts but the argument count exceeds
the bridge's unsigned 32-bit bound, try_call fails with the local
conversion/overflow kind and the invocation bridge never runs. -/
theorem c5_count_bound_guards (env : Env) (w : ZendCallable)
    (zs : List Zval) (slot : Option Zval)
    (hc : env.is_callable w.inner.as_ref = true)
    (hlen : U32_MAX < zs.length) :
    ZendCallable.try_call env w (zs.map Except.ok) slot =
      ⟨.error (.ConversionFailure .overflow), slot, 0, zs.length, 0⟩ := by
  simp [ZendCallable.try_call, hc, collect_results_map_ok, try_into_u32,
    Nat.not_le.mpr hlen]

/-- C5 witness: an argument list one past the bound is rejected with
the overflow kind and the bridge never runs. -/
theorem c5_count_bound_guards_witness :
    ZendCallable.try_call envW ⟨.Reference (.cell 0)⟩
        ((List.replicate (U32_MAX + 1) Zval.undef).map Except.ok) none =
      ⟨.error (.ConversionFailure .overflow), none, 0,
        (List.replicate (U32_MAX + 1) Zval.undef).length, 0⟩ :=
  c5_count_bound_guards envW ⟨.Reference (.cell 0)⟩
    (List.replicate (U32_MAX + 1) Zval.undef) none rfl (by simp)

/-- C1: for an invocation that reaches the foreign call, the result is
interpreted in this exact order: a negative bridge status fails with
NotCallable; otherwise, when the exception bridge's take-and-clear
yields a pending value, the call fails with Exception carrying that
value and the slot ends cleared; otherwise the call succeeds with the
output cell the bridge wrote. -/
theorem c1_result_interpretation (env : Env) (w : ZendCallable)
    (zs : List Zval) (slot : Option Zval)
    (hc : env.is_callable w.inner.as_ref = true)
    (hlen : zs.length ≤ U32_MAX) :
    ((env.bridge w.inner.as_ref zs.length zs).1 < 0 →
      ZendCallable.try_call env w (zs.map Except.ok) slot =
        ⟨.error .Callable, slot, 1, zs.length, 0⟩) ∧
    (0 ≤ (env.bridge w.inner.as_ref zs.length zs).1 →
      (∀ e, slot = some e →
        ZendCallable.try_call env w (zs.map Except.ok) slot =
          ⟨.error (.Exception e), none, 1, zs.length, 1⟩) ∧
      (slot = none →
        ZendCallable.try_call env w (zs.map Except.ok) slot =
          ⟨.ok (env.bridge w.inner.as_ref zs.length zs).2, none, 1, zs.length, 1⟩)) := by
  refine ⟨fun hneg => ?_, fun hpos => ⟨fun e hslot => ?_, fun hslot => ?_⟩⟩
  · simp [ZendCallable.try_call, hc, collect_results_map_ok, try_into_u32, hlen,
      ExecutorGlobals.take_exception, hneg]
  · simp [ZendCallable.try_call, hc, collect_results_map_ok, try_into_u32, hlen,
      ExecutorGlobals.take_exception, hslot, Int.not_lt.mpr hpos]
  · simp [ZendCallable.try_call, hc, collect_results_map_ok, try_into_u32, hlen,
      ExecutorGlobals.take_exception, hslot, Int.not_lt.mpr hpos]

/-- C1 witness: with one argument the concrete bridge returns status
zero; a pending exception is taken, reported, and the slot ends
cleared. -/
theorem c1_result_interpretation_witness :
    ZendCallable.try_call envW ⟨.Reference (.cell 0)⟩ ([Zval.undef].map Except.ok)
        (some (.cell 9)) =
      ⟨.error (.Exception (.cell 9)), none, 1, 1, 1⟩ :=
  ((c1_result_interpretation envW ⟨.Reference (.cell 0)⟩ [Zval.undef] (some (.cell 9))
      rfl (by decide)).2 (by decide)).1 (.cell 9) rfl

/-- C10: when the bridge status is negative, try_call returns
NotCallable without querying the exception bridge, so a pending
exception value sitting in the slot is left in place, neither consumed
nor cleared by this call. -/
theorem c10_negative_status_leaves_slot (env : Env) (w : ZendCallable)
    (zs : List Zval) (slot : Option Zval)
    (hc : env.is_callable w.inner.as_ref = true)
    (hlen : zs.length ≤ U32_MAX)
    (hneg : (env.bridge w.inner.as_ref zs.length zs).1 < 0) :
    ZendCallable.try_call env w (zs.map Except.ok) slot =
      ⟨.error .Callable, slot, 1, zs.length, 0⟩ := by
  simp [ZendCallable.try_call, hc, collect_results_map_ok, try_into_u32, hlen, hneg]

/-- C10 witness: with zero arguments the concrete bridge returns
status minus one; the pending exception value stays in the slot. -/
theorem c10_negative_status_leaves_slot_witness :
    ZendCallable.try_call envW ⟨.Reference (.cell 0)⟩ (([] : List Zval).map Except.ok)
        (some (.cell 9)) =
      ⟨.error .Callable, some (.cell 9), 1, 0, 0⟩ :=
  c10_negative_status_leaves_slot envW ⟨.Reference (.cell 0)⟩ [] (some (.cell 9))
    rfl (by decide) (by decide)

/-- C9: the fallible conversion from an owned value cell into a
wrapper returns exactly the outcome of new_owned on that cell: the
two entry points are equivalent. -/
theorem c9_try_from_is_new_owned (env : Env) (value : Zval) :
    ZendCallable.try_from env value = ZendCallable.new_owned env value :=
  rfl

end PhpCallable
